import Mathlib

/-!
# Verification of the `betteria` PDF-cleaning pipeline

A shallow embedding of `betteria/cli.py`: the page counter
(`get_page_count`), the filename sort key (`_page_sort_key`), the
rasterization driver (`pdf_to_images`), the binarizer
(`whiten_and_save_as_tiff`), the packer (`convert_tiffs_to_pdf`) and the
pipeline coordinator (`betteria`).  External effects (subprocesses, the
filesystem, image decoding) are modelled by explicit environment records,
and the observable filesystem effects each function performs are returned
as explicit state.  String manipulation is carried out on `List Char`
(via `String.toList`) so that every definition evaluates by `decide`.
-/

deriving instance DecidableEq for Except

namespace Betteria

/-! ## Python string primitives used by the code -/

/-- Python `str.split()` with no separator argument: split on runs of
whitespace, dropping empty tokens. -/
def pySplitWs (line : List Char) : List (List Char) :=
  (line.splitOnP Char.isWhitespace).filter (fun t => t ≠ [])

/-- The numeric value of a string of decimal digit characters. -/
def digitsVal (cs : List Char) : Nat :=
  cs.foldl (fun a c => 10 * a + (c.toNat - 48)) 0

/-- The value of a non-empty all-digit token, `none` otherwise. -/
def digitsVal? (cs : List Char) : Option Nat :=
  if cs ≠ [] ∧ cs.all Char.isDigit then some (digitsVal cs) else none

/-- Python `int(s)` on a whitespace-free token: optional sign followed by
decimal digits; `none` when the token does not parse (a `ValueError`). -/
def pyInt? (cs : List Char) : Option Int :=
  match cs with
  | '-' :: rest => (digitsVal? rest).map (fun n => -(n : Int))
  | '+' :: rest => (digitsVal? rest).map (fun n => (n : Int))
  | _ => (digitsVal? cs).map (fun n => (n : Int))

/-- `pathlib.Path.stem` on a bare file name: the name with its last
extension removed; a dot in first position or in last position does not
start an extension. -/
def stemChars (cs : List Char) : List Char :=
  let dotIdxs := (List.range cs.length).filter (fun i => cs.getD i ' ' = '.')
  match dotIdxs.getLast? with
  | some i => if 0 < i ∧ i + 1 < cs.length then cs.take i else cs
  | none => cs

/-! ## `get_page_count` -/

/-- Behaviour of the external `pdfinfo` process: whether the binary is on
`PATH`, whether it exits zero, and its captured output streams. -/
structure PdfInfoEnv where
  toolPresent : Bool
  exitOk : Bool
  stderr : String
  stdoutLines : List String

/-- The distinguishable failures `get_page_count` can raise. -/
inductive PageCountErr where
  /-- `FileNotFoundError`: the input PDF does not exist. -/
  | fileNotFound
  /-- `RuntimeError`: the `pdfinfo` binary is missing from `PATH`. -/
  | toolMissing
  /-- `RuntimeError` wrapping a `CalledProcessError`: non-zero exit. -/
  | calledProcessError (stderr : String)
  /-- `IndexError`: a `pages:` line with no second token. -/
  | indexError
  /-- `ValueError`: the token after `Pages:` is not an integer. -/
  | valueError
  /-- `RuntimeError`: no `pages:` line in the output at all. -/
  | noPagesField
  deriving Repr, DecidableEq

/-- Does the lowercased line start with `"pages:"`?  (Python
`line.lower().startswith("pages:")`.) -/
def isPagesLine (line : String) : Bool :=
  List.isPrefixOf "pages:".toList (line.toList.map Char.toLower)

/-- The first stdout line whose lowercasing starts with `"pages:"` —
the line the Python `for` loop returns from. -/
def findPagesLine (lines : List String) : Option String :=
  lines.find? isPagesLine

/-- `get_page_count`: check that the input exists, run `pdfinfo`, scan its
stdout for the first `Pages:` line and parse that line's second
whitespace-separated token as the page count. -/
def get_page_count (inputExists : Bool) (env : PdfInfoEnv) :
    Except PageCountErr Int :=
  if !inputExists then .error .fileNotFound
  else if !env.toolPresent then .error .toolMissing
  else if !env.exitOk then .error (.calledProcessError env.stderr)
  else
    match findPagesLine env.stdoutLines with
    | none => .error .noPagesField
    | some line =>
      match (pySplitWs line.toList).get? 1 with
      | none => .error .indexError
      | some tok =>
        match pyInt? tok with
        | none => .error .valueError
        | some n => .ok n

/-! ## `_page_sort_key` -/

/-- Python's `sys.maxsize` on a 64-bit platform, the fallback key for a
file name containing no digits. -/
def sysMaxsize : Nat := 2 ^ 63 - 1

/-- `_page_sort_key`: take the stem of the file name, split it on `-`, and
return the integer formed by the digit characters of the last component
containing a digit; `sys.maxsize` when no component has digits. -/
def page_sort_key (name : String) : Nat :=
  let parts := (stemChars name.toList).splitOn '-'
  match parts.reverse.findSome?
      (fun part => digitsVal? (part.filter Char.isDigit)) with
  | some n => n
  | none => sysMaxsize

/-- The comparison `sorted` uses: ascending numeric page key. -/
def pageKeyLe (a b : String) : Prop := page_sort_key a ≤ page_sort_key b

instance : DecidableRel pageKeyLe := fun a b =>
  inferInstanceAs (Decidable (page_sort_key a ≤ page_sort_key b))

/-- `sorted(target_dir.glob("page-*.png"), key=_page_sort_key)`: a stable
sort of the globbed file names by their numeric page key (Python's
`sorted` is stable; so is insertion sort). -/
def sortedPngs (produced : List String) : List String :=
  produced.insertionSort pageKeyLe

/-! ## Worker-count decisions -/

/-- `_available_cpu_count`: every branch of the Python function returns a
positive count (`sched_getaffinity` sets are non-empty, the `sysctl`
fallbacks are guarded by `count > 0`, and the final fallback is
`max(1, os.cpu_count() or 1)`); the raw machine-reported number is the
environment. -/
def available_cpu_count (cpuRaw : Nat) : Nat := max 1 cpuRaw

/-- The rasterization pool size in `pdf_to_images`:
`worker_target = jobs if jobs > 0 else _available_cpu_count()` followed by
`worker_target = max(1, min(worker_target, total_pages))`. -/
def rasterWorkerTarget (jobs : Nat) (cpuRaw : Nat) (totalPages : Int) : Int :=
  let w : Int := if jobs > 0 then (jobs : Int) else (available_cpu_count cpuRaw : Int)
  max 1 (min w totalPages)

/-- The binarization pool size in `betteria`:
`worker_target = jobs if jobs > 0 else _available_cpu_count()` followed by
`worker_target = min(worker_target, len(png_paths))` (no `max(1, ...)`
here, unlike the rasterizer). -/
def binarizeWorkerTarget (jobs : Nat) (cpuRaw : Nat) (nPngs : Nat) : Nat :=
  let w : Nat := if jobs > 0 then jobs else available_cpu_count cpuRaw
  min w nPngs

/-! ## `pdf_to_images` -/

/-- Behaviour of the external rasterizer and of the CPU probe as seen by
`pdf_to_images`: whether the Poppler binary is on `PATH`, the exit status
and stderr of the single whole-document invocation, the per-page exit
statuses and stderr of the multi-worker invocations, the PNG file names
that `target_dir.glob("page-*.png")` matches after the run (in the
filesystem's arbitrary order), and the machine's raw CPU count. -/
structure RasterEnv where
  pdfinfo : PdfInfoEnv
  toolPresent : Bool
  exitOk : Bool
  stderr : String
  pageExitOk : Nat → Bool
  pageStderr : Nat → String
  produced : List String
  cpuRaw : Nat

/-- The distinguishable failures `pdf_to_images` can raise. -/
inductive RasterErr where
  /-- an error propagated from `get_page_count`. -/
  | pageCount (e : PageCountErr)
  /-- `RuntimeError`: the rasterizer binary is missing from `PATH`. -/
  | toolMissing
  /-- `RuntimeError`: the single whole-document invocation exited non-zero. -/
  | processFailed (stderr : String)
  /-- `RuntimeError`: a per-page invocation exited non-zero (multi mode),
  naming the page and its stderr. -/
  | pageFailed (page : Nat) (stderr : String)
  /-- `RuntimeError`: `Expected {total_pages} PNG files but found
  {len(png_paths)}` — the post-condition check. -/
  | countMismatch (expected : Int) (found : Nat)
  deriving Repr, DecidableEq

/-- `pdf_to_images`: count pages, decide the worker target, rasterize
either with one whole-document invocation (`worker_target <= 1`) or one
invocation per page on a thread pool, then glob the produced PNGs, sort
them by `_page_sort_key`, and check the count against the page count.
In multi mode the first failing page (in `as_completed` order, modelled
as page order) cancels the rest and is surfaced. -/
def pdf_to_images (inputExists : Bool) (jobs : Nat) (env : RasterEnv) :
    Except RasterErr (List String) :=
  match get_page_count inputExists env.pdfinfo with
  | .error e => .error (.pageCount e)
  | .ok totalPages =>
    let workerTarget := rasterWorkerTarget jobs env.cpuRaw totalPages
    if workerTarget ≤ 1 then
      if !env.toolPresent then .error .toolMissing
      else if !env.exitOk then .error (.processFailed env.stderr)
      else
        let pngs := sortedPngs env.produced
        if (pngs.length : Int) ≠ totalPages then
          .error (.countMismatch totalPages pngs.length)
        else .ok pngs
    else
      if !env.toolPresent then .error .toolMissing
      else
        match (List.range' 1 totalPages.toNat).find?
            (fun p => !env.pageExitOk p) with
        | some p => .error (.pageFailed p (env.pageStderr p))
        | none =>
          let pngs := sortedPngs env.produced
          if (pngs.length : Int) ≠ totalPages then
            .error (.countMismatch totalPages pngs.length)
          else .ok pngs

/-- The stages of `pdf_to_images` that precede the final count check all
succeed: the page count parses and every rasterizer invocation of the
selected mode exits zero. -/
def rasterPhaseOk (inputExists : Bool) (jobs : Nat) (env : RasterEnv)
    (totalPages : Int) : Bool :=
  decide (get_page_count inputExists env.pdfinfo = .ok totalPages) &&
    env.toolPresent &&
    (if rasterWorkerTarget jobs env.cpuRaw totalPages ≤ 1 then env.exitOk
     else (List.range' 1 totalPages.toNat).all env.pageExitOk)

/-! ## `whiten_and_save_as_tiff` -/

/-- A grayscale image as rows of 8-bit pixel values (`cv2.imread` with
`IMREAD_GRAYSCALE` yields a `uint8` array, so every pixel is `≤ 255`). -/
abbrev Img := List (List Nat)

/-- All rows have the stated width and all pixels fit in a byte. -/
def validImg (img : Img) : Prop :=
  ∀ row ∈ img, ∀ p ∈ row, p ≤ 255

/-- Apply a column-dependent pixel map to a row, counting columns from `j`. -/
def mapRow (g : Nat → Nat → Nat) : Nat → List Nat → List Nat
  | _, [] => []
  | j, p :: ps => g j p :: mapRow g (j + 1) ps

/-- Apply a position-dependent pixel map to the rows, counting rows from `i`. -/
def mapGrid (f : Nat → Nat → Nat → Nat) : Nat → Img → Img
  | _, [] => []
  | i, row :: rest => mapRow (f i) 0 row :: mapGrid f (i + 1) rest

/-- Apply a position-dependent pixel map (row index, column index, value). -/
def mapPixels (f : Nat → Nat → Nat → Nat) (img : Img) : Img :=
  mapGrid f 0 img

/-- `img = 255 - img`. -/
def invertImg (img : Img) : Img :=
  img.map (fun row => row.map (fun p => 255 - p))

/-- `cv2.threshold(img, threshold, 255, cv2.THRESH_BINARY)`: each pixel
strictly above the threshold becomes 255, every other pixel 0. -/
def globalThreshold (thresh : Int) (img : Img) : Img :=
  img.map (fun row => row.map (fun p => if Int.ofNat p > thresh then 255 else 0))

/-- `cv2.adaptiveThreshold(img, 255, ADAPTIVE_THRESH_GAUSSIAN_C,
THRESH_BINARY, block_size, c_val)`: each pixel strictly above its local
threshold becomes 255, every other pixel 0.  The local threshold is the
Gaussian-weighted mean of the `block_size × block_size` neighbourhood
minus `c_val`; OpenCV computes that mean in floating point, so it enters
the model as the environment-supplied surface `gaussMean`. -/
def adaptiveThreshold (gaussMean : Nat → Nat → Int) (cVal : Int) (img : Img) :
    Img :=
  mapPixels (fun i j p => if Int.ofNat p > gaussMean i j - cVal then 255 else 0) img

/-- `PIL.Image.convert("1")` on the already bilevel threshold output: a
pixel value above 127 stays white (255), the rest black (0).  (PIL
dithers by default, but on an input whose pixels are all 0 or 255 —
always the case here — dithering accumulates no error and reduces to this
cutoff.) -/
def convertBilevel (img : Img) : Img :=
  img.map (fun row => row.map (fun p => if p > 127 then 255 else 0))

/-- The keyword arguments of `whiten_and_save_as_tiff`. -/
structure BinarizeArgs where
  threshold : Int := 128
  use_adaptive : Bool := false
  block_size : Int := 31
  c_val : Int := 15
  invert : Bool := false

/-- The failures `whiten_and_save_as_tiff` can raise. -/
inductive BinarizeErr where
  /-- `RuntimeError: Failed to read image` — `cv2.imread` returned `None`. -/
  | decodeFailed
  /-- `cv2.error`: `adaptiveThreshold` asserts `block_size` odd and `> 1`. -/
  | invalidBlockSize
  deriving Repr, DecidableEq

/-- `whiten_and_save_as_tiff`: decode as grayscale, optionally invert,
threshold globally or adaptively, convert to 1-bit and save.  The decoded
image (or decode failure) and the adaptive mean surface come from the
environment; the function's value is the image written to the TIFF. -/
def whiten_and_save_as_tiff (decoded : Option Img) (args : BinarizeArgs)
    (gaussMean : Nat → Nat → Int) : Except BinarizeErr Img :=
  match decoded with
  | none => .error .decodeFailed
  | some img0 =>
    let img := if args.invert then invertImg img0 else img0
    if args.use_adaptive then
      if args.block_size % 2 = 1 ∧ args.block_size > 1 then
        .ok (convertBilevel (adaptiveThreshold gaussMean args.c_val img))
      else .error .invalidBlockSize
    else .ok (convertBilevel (globalThreshold args.threshold img))

/-! ## `convert_tiffs_to_pdf` -/

/-- What the file at the output path looks like after a run. -/
inductive OutFile where
  /-- no file was created at the output path. -/
  | absent
  /-- `output.open("wb")` created (or truncated to) an empty file, and no
  bytes were written before the failure. -/
  | emptyFile
  /-- the complete PDF bytes were written. -/
  | written
  deriving Repr, DecidableEq

/-- Environment of `convert_tiffs_to_pdf`: whether the output path
resolves to an existing directory, whether its parent directories already
exist, and whether `img2pdf.convert` succeeds on the given pages. -/
structure PackEnv where
  outputIsDir : Bool
  parentExists : Bool
  img2pdfOk : Bool

/-- The failures `convert_tiffs_to_pdf` can raise. -/
inductive PackErr where
  /-- `ValueError: No TIFF pages supplied; cannot build PDF`. -/
  | emptyList
  /-- `IsADirectoryError` from `output.open("wb")`. -/
  | isADirectory
  /-- an exception out of `img2pdf.convert`. -/
  | convertFailed
  deriving Repr, DecidableEq

/-- Filesystem effects of `convert_tiffs_to_pdf`. -/
structure PackState where
  parentDirsExist : Bool
  out : OutFile
  deriving Repr, DecidableEq

/-- `convert_tiffs_to_pdf`: reject an empty page list, make the output's
parent directories (`mkdir(parents=True, exist_ok=True)`), open the
output for writing — which fails on a directory and otherwise creates an
empty file — then evaluate `img2pdf.convert` and write its bytes.  A
`convert` failure therefore leaves the just-created empty file behind. -/
def convert_tiffs_to_pdf (tiffPaths : List String) (env : PackEnv) :
    Except PackErr Unit × PackState :=
  if tiffPaths.isEmpty then
    (.error .emptyList, ⟨env.parentExists, .absent⟩)
  else if env.outputIsDir then
    (.error .isADirectory, ⟨true, .absent⟩)
  else if env.img2pdfOk then
    (.ok (), ⟨true, .written⟩)
  else
    (.error .convertFailed, ⟨true, .emptyFile⟩)

/-! ## `betteria` (the pipeline coordinator) -/

/-- The configuration parameters of `betteria`, with the CLI defaults. -/
structure Config where
  dpi : Int := 150
  threshold : Int := 128
  use_adaptive : Bool := false
  block_size : Int := 31
  c_val : Int := 15
  invert : Bool := false
  jobs : Nat := 0

/-- Environment of a whole pipeline run. -/
structure PipeEnv where
  /-- does the input PDF exist? -/
  inputExists : Bool
  /-- does the output path resolve to an existing directory? -/
  outputIsDir : Bool
  /-- do the output path's parent directories exist beforehand? -/
  outParentExists : Bool
  /-- the rasterizer's environment. -/
  raster : RasterEnv
  /-- `cv2.imread` on each produced PNG. -/
  decode : String → Option Img
  /-- the adaptive-threshold mean surface for each PNG. -/
  gaussMean : String → Nat → Nat → Int
  /-- does `img2pdf.convert` succeed on the produced TIFFs? -/
  img2pdfOk : Bool

/-- The distinguishable failures `betteria` can raise. -/
inductive PipeErr where
  /-- `ValueError: DPI must be a positive integer`. -/
  | invalidDpi
  /-- `ValueError: Threshold must be between 0 and 255`. -/
  | invalidThreshold
  /-- `ValueError: block_size must be an odd integer >= 3 ...`. -/
  | invalidBlockSize
  /-- `FileNotFoundError` on the input path. -/
  | inputNotFound
  /-- `IsADirectoryError: Output path points to a directory`. -/
  | outputIsDirectory
  /-- an error propagated from `pdf_to_images`. -/
  | raster (e : RasterErr)
  /-- `RuntimeError: No PNG pages generated from input PDF`. -/
  | noPngPages
  /-- an error propagated from `whiten_and_save_as_tiff`, with the page. -/
  | binarize (png : String) (e : BinarizeErr)
  /-- an error propagated from `convert_tiffs_to_pdf`. -/
  | pack (e : PackErr)
  deriving Repr, DecidableEq

/-- The externally observable work a `betteria` run performed. -/
structure PipeState where
  /-- temporary directories created (the two `TemporaryDirectory` calls). -/
  tempDirs : Nat
  /-- was any external tool invoked (`pdfinfo` / the rasterizer)? -/
  externalToolUsed : Bool
  /-- was any file read (`cv2.imread` / `img2pdf.convert`)? -/
  fileRead : Bool
  /-- `none` when binarization ran sequentially in-process, `some n` when a
  process pool of `n` workers was used. -/
  binarizePool : Option Nat
  /-- do the output path's parent directories exist afterwards? -/
  outParentsMade : Bool
  /-- the file at the output path afterwards. -/
  out : OutFile
  deriving Repr, DecidableEq

/-- The state of a run that failed validation: nothing has happened. -/
def untouched (env : PipeEnv) : PipeState :=
  ⟨0, false, false, none, env.outParentExists, .absent⟩

/-- The first PNG whose binarization fails, with its error — the
sequential loop stops there, and the pool run re-raises the first failed
future (modelled in page order). -/
def firstBinarizeError (decode : String → Option Img)
    (gaussMean : String → Nat → Nat → Int) (args : BinarizeArgs) :
    List String → Option (String × BinarizeErr)
  | [] => none
  | p :: rest =>
    match whiten_and_save_as_tiff (decode p) args (gaussMean p) with
    | .error e => some (p, e)
    | .ok _ => firstBinarizeError decode gaussMean args rest

/-- The TIFF file name for a PNG page: `png_path.stem + ".tiff"`. -/
def tiffName (png : String) : String :=
  String.mk (stemChars png.toList) ++ ".tiff"

/-- `betteria`: validate the configuration, check the input and output
paths, create the two temporary directories, rasterize, binarize
(sequentially below two workers, on a process pool otherwise), and pack.
The returned state records the run's observable filesystem effects. -/
def betteria (cfg : Config) (env : PipeEnv) :
    Except PipeErr Unit × PipeState :=
  if cfg.dpi ≤ 0 then (.error .invalidDpi, untouched env)
  else if cfg.threshold < 0 ∨ 255 < cfg.threshold then
    (.error .invalidThreshold, untouched env)
  else if cfg.use_adaptive ∧ (cfg.block_size < 3 ∨ cfg.block_size % 2 = 0) then
    (.error .invalidBlockSize, untouched env)
  else if !env.inputExists then (.error .inputNotFound, untouched env)
  else if env.outputIsDir then (.error .outputIsDirectory, untouched env)
  else
    let s1 : PipeState :=
      { untouched env with tempDirs := 2, externalToolUsed := true }
    match pdf_to_images env.inputExists cfg.jobs env.raster with
    | .error e => (.error (.raster e), s1)
    | .ok pngs =>
      if pngs.isEmpty then (.error .noPngPages, s1)
      else
        let wt := binarizeWorkerTarget cfg.jobs env.raster.cpuRaw pngs.length
        let pool : Option Nat := if wt ≤ 1 then none else some wt
        let s2 : PipeState := { s1 with fileRead := true, binarizePool := pool }
        let args : BinarizeArgs :=
          ⟨cfg.threshold, cfg.use_adaptive, cfg.block_size, cfg.c_val, cfg.invert⟩
        match firstBinarizeError env.decode env.gaussMean args pngs with
        | some (p, e) => (.error (.binarize p e), s2)
        | none =>
          match convert_tiffs_to_pdf (pngs.map tiffName)
              ⟨env.outputIsDir, env.outParentExists, env.img2pdfOk⟩ with
          | (.ok _, ps) =>
            (.ok (), { s2 with outParentsMade := ps.parentDirsExist, out := ps.out })
          | (.error e, ps) =>
            (.error (.pack e),
              { s2 with outParentsMade := ps.parentDirsExist, out := ps.out })

/-! ## Helper lemmas -/

/-- All pixels of the image carry the single value `v`. -/
def allPixels (v : Nat) (img : Img) : Prop :=
  ∀ row ∈ img, ∀ p ∈ row, p = v

instance (v : Nat) (img : Img) : Decidable (allPixels v img) :=
  inferInstanceAs (Decidable (∀ row ∈ img, ∀ p ∈ row, p = v))

instance : IsTotal String pageKeyLe :=
  ⟨fun a b => Nat.le_total (page_sort_key a) (page_sort_key b)⟩

instance : IsTrans String pageKeyLe :=
  ⟨fun _ _ _ => Nat.le_trans⟩

theorem sortedPngs_pairwise (l : List String) :
    List.Pairwise pageKeyLe (sortedPngs l) :=
  List.sorted_insertionSort pageKeyLe l

theorem sortedPngs_perm (l : List String) : (sortedPngs l).Perm l :=
  List.perm_insertionSort pageKeyLe l

/-- A successful `pdf_to_images` run returns exactly the key-sorted glob of
the target directory, and its length passed the count check. -/
theorem pdf_to_images_ok_elim (ie : Bool) (jobs : Nat) (env : RasterEnv)
    (l : List String) (h : pdf_to_images ie jobs env = .ok l) :
    l = sortedPngs env.produced ∧
      ∃ n, get_page_count ie env.pdfinfo = .ok n ∧ (l.length : Int) = n := by
  unfold pdf_to_images at h
  cases hpc : get_page_count ie env.pdfinfo with
  | error e => rw [hpc] at h; exact absurd h (by simp)
  | ok n =>
    rw [hpc] at h
    dsimp only at h
    by_cases hw : rasterWorkerTarget jobs env.cpuRaw n ≤ 1
    · rw [if_pos hw] at h
      by_cases ht : env.toolPresent <;> simp [ht] at h
      by_cases he : env.exitOk <;> simp [he] at h
      by_cases hc : ((sortedPngs env.produced).length : Int) = n <;>
        simp [hc] at h
      exact ⟨h.symm, n, rfl, by rw [← h]; exact hc⟩
    · rw [if_neg hw] at h
      by_cases ht : env.toolPresent <;> simp [ht] at h
      cases hf : (List.range' 1 n.toNat).find? (fun p => !env.pageExitOk p) with
      | some p => rw [hf] at h; exact absurd h (by simp)
      | none =>
        rw [hf] at h
        by_cases hc : ((sortedPngs env.produced).length : Int) = n <;>
          simp [hc] at h
        exact ⟨h.symm, n, rfl, by rw [← h]; exact hc⟩

theorem mapRow_length (g : Nat → Nat → Nat) (j : Nat) (row : List Nat) :
    (mapRow g j row).length = row.length := by
  induction row generalizing j with
  | nil => rfl
  | cons p ps ih => simp [mapRow, ih]

theorem mapGrid_shape (f : Nat → Nat → Nat → Nat) (i : Nat) (img : Img) :
    (mapGrid f i img).map List.length = img.map List.length := by
  induction img generalizing i with
  | nil => rfl
  | cons row rest ih => simp [mapGrid, mapRow_length, ih]

theorem rowMap_shape (f : Nat → Nat) (img : Img) :
    (img.map (fun row => row.map f)).map List.length = img.map List.length := by
  simp [List.map_map, Function.comp_def]

theorem invertImg_shape (img : Img) :
    (invertImg img).map List.length = img.map List.length := by
  unfold invertImg; exact rowMap_shape _ img

theorem globalThreshold_shape (t : Int) (img : Img) :
    (globalThreshold t img).map List.length = img.map List.length := by
  unfold globalThreshold; exact rowMap_shape _ img

theorem adaptiveThreshold_shape (gm : Nat → Nat → Int) (c : Int) (img : Img) :
    (adaptiveThreshold gm c img).map List.length = img.map List.length := by
  unfold adaptiveThreshold mapPixels; exact mapGrid_shape _ 0 img

theorem convertBilevel_shape (img : Img) :
    (convertBilevel img).map List.length = img.map List.length := by
  unfold convertBilevel; exact rowMap_shape _ img

theorem convertBilevel_bilevel (img : Img) :
    ∀ row ∈ convertBilevel img, ∀ p ∈ row, p = 0 ∨ p = 255 := by
  intro row hr p hp
  simp only [convertBilevel, List.mem_map] at hr
  obtain ⟨row0, -, rfl⟩ := hr
  simp only [List.mem_map] at hp
  obtain ⟨p0, -, rfl⟩ := hp
  split <;> simp

/-- Every successful `whiten_and_save_as_tiff` output is the bilevel
conversion of a thresholded image of the same shape as the decoded one. -/
theorem whiten_ok_elim (img out : Img) (args : BinarizeArgs)
    (gm : Nat → Nat → Int)
    (h : whiten_and_save_as_tiff (some img) args gm = .ok out) :
    ∃ mid : Img, out = convertBilevel mid ∧
      mid.map List.length = img.map List.length := by
  unfold whiten_and_save_as_tiff at h
  dsimp only at h
  by_cases ha : args.use_adaptive
  · simp only [ha, if_pos] at h
    by_cases hb : args.block_size % 2 = 1 ∧ args.block_size > 1
    · rw [if_pos hb] at h
      simp only [Except.ok.injEq] at h
      refine ⟨_, h.symm, ?_⟩
      rw [adaptiveThreshold_shape]
      by_cases hi : args.invert <;> simp [hi, invertImg_shape]
    · rw [if_neg hb] at h; exact absurd h (by simp)
  · simp only [ha, if_neg, Bool.false_eq_true, not_false_iff,
      Except.ok.injEq] at h
    refine ⟨_, h.symm, ?_⟩
    rw [globalThreshold_shape]
    by_cases hi : args.invert <;> simp [hi, invertImg_shape]

theorem rowMap_mem {f : Nat → Nat} {img : Img} {row : List Nat} {p : Nat}
    (hr : row ∈ img.map (fun r => r.map f)) (hp : p ∈ row) :
    ∃ q, (∃ r0 ∈ img, q ∈ r0) ∧ p = f q := by
  simp only [List.mem_map] at hr
  obtain ⟨r0, hr0, rfl⟩ := hr
  simp only [List.mem_map] at hp
  obtain ⟨q, hq, rfl⟩ := hp
  exact ⟨q, ⟨r0, hr0, hq⟩, rfl⟩

theorem allPixels_rowMap (f : Nat → Nat) (v : Nat) (img : Img)
    (h : allPixels v img) :
    allPixels (f v) (img.map (fun r => r.map f)) := by
  intro row hr p hp
  obtain ⟨q, ⟨r0, hr0, hq⟩, rfl⟩ := rowMap_mem hr hp
  rw [h r0 hr0 q hq]

theorem pack_pair_ok (tiffPaths : List String) (penv : PackEnv)
    (ps : PackState) (h : convert_tiffs_to_pdf tiffPaths penv = (.ok (), ps)) :
    ps.out = .written := by
  unfold convert_tiffs_to_pdf at h
  by_cases he : tiffPaths.isEmpty <;> simp [he] at h
  by_cases hd : penv.outputIsDir <;> simp [hd] at h
  by_cases hk : penv.img2pdfOk <;> simp [hk] at h
  rw [← h]

theorem pack_pair_err (tiffPaths : List String) (penv : PackEnv)
    (ps : PackState) (e : PackErr)
    (h : convert_tiffs_to_pdf tiffPaths penv = (.error e, ps)) :
    (e = .convertFailed ∧ ps.out = .emptyFile) ∨
      (e ≠ .convertFailed ∧ ps.out = .absent) := by
  unfold convert_tiffs_to_pdf at h
  by_cases he : tiffPaths.isEmpty <;> simp [he] at h
  · exact Or.inr ⟨by rw [← h.1]; simp, by rw [← h.2]⟩
  · by_cases hd : penv.outputIsDir <;> simp [hd] at h
    · exact Or.inr ⟨by rw [← h.1]; simp, by rw [← h.2]⟩
    · by_cases hk : penv.img2pdfOk <;> simp [hk] at h
      exact Or.inl ⟨h.1.symm, by rw [← h.2]⟩

end Betteria

namespace Betteria

/-! ## The claims -/

/-- C1: in both single-worker and multi-worker mode, `pdf_to_images`
returns a list of paths only when its length equals the page count
reported by `get_page_count`, and when the number of PNG files found in
the target directory differs from that page count it raises the fatal
count-mismatch error naming the expected and the found counts. -/
theorem pdf_to_images_count_postcondition (ie : Bool) (jobs : Nat)
    (env : RasterEnv) :
    (∀ l, pdf_to_images ie jobs env = .ok l →
      ∃ n, get_page_count ie env.pdfinfo = .ok n ∧ (l.length : Int) = n) ∧
    (∀ n : Int, rasterPhaseOk ie jobs env n = true →
      ((sortedPngs env.produced).length : Int) ≠ n →
      pdf_to_images ie jobs env =
        .error (.countMismatch n (sortedPngs env.produced).length)) := by
  constructor
  · intro l h
    exact (pdf_to_images_ok_elim ie jobs env l h).2
  · intro n hok hne
    unfold rasterPhaseOk at hok
    simp only [Bool.and_eq_true, decide_eq_true_eq] at hok
    obtain ⟨⟨hpc, ht⟩, hrest⟩ := hok
    unfold pdf_to_images
    rw [hpc]
    dsimp only
    by_cases hw : rasterWorkerTarget jobs env.cpuRaw n ≤ 1
    · rw [if_pos hw] at hrest ⊢
      simp [ht, hrest, hne]
    · rw [if_neg hw] at hrest ⊢
      have : (List.range' 1 n.toNat).find? (fun p => !env.pageExitOk p) = none := by
        apply List.find?_eq_none.mpr
        intro p hp
        simp only [List.all_eq_true] at hrest
        simp [hrest p hp]
      simp [ht, this, hne]

/-- C1 witness: a 3-page document for which only two PNGs appear. -/
theorem pdf_to_images_count_postcondition_witness :
    pdf_to_images true 1
      ⟨⟨true, true, "", ["Pages: 3"]⟩, true, true, "", fun _ => true, fun _ => "",
        ["page-2.png", "page-1.png"], 4⟩ = .error (.countMismatch 3 2) := by
  have h := (pdf_to_images_count_postcondition true 1
      ⟨⟨true, true, "", ["Pages: 3"]⟩, true, true, "", fun _ => true, fun _ => "",
        ["page-2.png", "page-1.png"], 4⟩).2 3 (by decide) (by decide)
  exact h.trans (by decide)

/-- C4: a successful `pdf_to_images` run returns the produced files
ordered by the numeric page key `_page_sort_key` extracts from each
filename (never by completion order — the result is a sort of the glob),
and in particular the key of page 10 is greater than the key of page 2. -/
theorem pdf_to_images_page_order (ie : Bool) (jobs : Nat) (env : RasterEnv)
    (l : List String) (h : pdf_to_images ie jobs env = .ok l) :
    List.Pairwise pageKeyLe l ∧ l.Perm env.produced ∧
      page_sort_key "page-2.png" < page_sort_key "page-10.png" := by
  obtain ⟨rfl, -⟩ := pdf_to_images_ok_elim ie jobs env l h
  exact ⟨sortedPngs_pairwise _, sortedPngs_perm _, by decide⟩

/-- C4 witness: a directory listing `page-10` before `page-2` comes back
sorted as page 2 before page 10. -/
theorem pdf_to_images_page_order_witness :
    List.Pairwise pageKeyLe ["page-2.png", "page-10.png"] ∧
      List.Perm ["page-2.png", "page-10.png"] ["page-10.png", "page-2.png"] ∧
      page_sort_key "page-2.png" < page_sort_key "page-10.png" :=
  pdf_to_images_page_order true 1
    ⟨⟨true, true, "", ["Pages: 2"]⟩, true, true, "", fun _ => true, fun _ => "",
      ["page-10.png", "page-2.png"], 4⟩ ["page-2.png", "page-10.png"] (by decide)

/-- C8 counterexample: `get_page_count` performs no positivity check — on
a `pdfinfo` output reporting `Pages: 0` it succeeds with the
non-positive value `0`. -/
theorem get_page_count_nonpositive_cex :
    get_page_count true ⟨true, true, "", ["Pages: 0"]⟩ = .ok 0 ∧
      ¬ (0 : Int) > 0 := by decide

/-- C8 (amended): on success `get_page_count` returns the integer parsed
from the second token of the first `Pages:` line of the tool's output
(positive whenever the tool reports a positive count, but not checked),
and it raises an error when the input file does not exist, when the tool
is missing, when the tool exits non-zero, and when no `Pages:` field
appears in the output. -/
theorem get_page_count_contract (ie : Bool) (env : PdfInfoEnv) :
    (∀ n : Int, get_page_count ie env = .ok n →
      ∃ line, findPagesLine env.stdoutLines = some line ∧
        ∃ tok, (pySplitWs line.toList).get? 1 = some tok ∧ pyInt? tok = some n) ∧
    (ie = false → get_page_count ie env = .error .fileNotFound) ∧
    (env.toolPresent = false → ie = true →
      get_page_count ie env = .error .toolMissing) ∧
    (env.exitOk = false → ie = true → env.toolPresent = true →
      get_page_count ie env = .error (.calledProcessError env.stderr)) ∧
    (findPagesLine env.stdoutLines = none → ie = true →
      env.toolPresent = true → env.exitOk = true →
      get_page_count ie env = .error .noPagesField) := by
  refine ⟨?_, ?_, ?_, ?_, ?_⟩
  · intro n h
    unfold get_page_count at h
    split at h
    · exact absurd h (by simp)
    split at h
    · exact absurd h (by simp)
    split at h
    · exact absurd h (by simp)
    split at h
    · exact absurd h (by simp)
    rename_i line hl
    split at h
    · exact absurd h (by simp)
    rename_i tok htok
    split at h
    · exact absurd h (by simp)
    rename_i m hm
    simp only [Except.ok.injEq] at h
    subst h
    exact ⟨line, hl, tok, htok, hm⟩
  · intro h; simp [get_page_count, h]
  · intro h hie; simp [get_page_count, h, hie]
  · intro h hie ht; simp [get_page_count, h, hie, ht]
  · intro h hie ht he; simp [get_page_count, h, hie, ht, he]

/-- C8 witness: a missing input file is reported as such. -/
theorem get_page_count_contract_witness :
    get_page_count false ⟨true, true, "", []⟩ = .error .fileNotFound :=
  (get_page_count_contract false ⟨true, true, "", []⟩).2.1 rfl

/-- C5 counterexample: with `invert` enabled and the (in-range) global
threshold 255, a uniformly all-black input comes out all-black, not
all-white — `cv2.threshold` uses a strict comparison, and no inverted
pixel exceeds 255. -/
theorem invert_threshold_black_cex :
    whiten_and_save_as_tiff (some [[0]])
        ⟨255, false, 31, 15, true⟩ (fun _ _ => 0) = .ok [[0]] ∧
      ¬ allPixels 255 [[0]] := by decide

/-- C5 (amended): with `invert` enabled and global thresholding, every
all-white input yields an all-black output for any threshold in 0–255,
and every all-black input yields an all-white output for any threshold
in 0–254 (at threshold 255 every pixel, inverted to 255, fails the
strict comparison and the output is all-black instead). -/
theorem invert_threshold_extremes (img out : Img) (t : Int)
    (gm : Nat → Nat → Int) (h0 : 0 ≤ t) (h255 : t ≤ 255) :
    (allPixels 255 img →
      whiten_and_save_as_tiff (some img) ⟨t, false, 31, 15, true⟩ gm = .ok out →
      allPixels 0 out) ∧
    (allPixels 0 img → t ≤ 254 →
      whiten_and_save_as_tiff (some img) ⟨t, false, 31, 15, true⟩ gm = .ok out →
      allPixels 255 out) := by
  have hout : whiten_and_save_as_tiff (some img) ⟨t, false, 31, 15, true⟩ gm =
      .ok (convertBilevel (globalThreshold t (invertImg img))) := by
    unfold whiten_and_save_as_tiff
    simp
  constructor
  · intro hwhite hw
    rw [hout] at hw
    obtain rfl : convertBilevel (globalThreshold t (invertImg img)) = out := by
      simpa using hw
    have h1 : allPixels 0 (invertImg img) := by
      have := allPixels_rowMap (fun p => 255 - p) 255 img hwhite
      simpa [invertImg] using this
    have h2 : allPixels 0 (globalThreshold t (invertImg img)) := by
      have h := allPixels_rowMap (fun p => if Int.ofNat p > t then 255 else 0)
        0 _ h1
      have ht0 : ¬ t < (0 : Int) := not_lt.mpr h0
      simpa [globalThreshold, ht0] using h
    have h3 := allPixels_rowMap (fun p => if p > 127 then 255 else 0) 0 _ h2
    simpa [convertBilevel] using h3
  · intro hblack h254 hw
    rw [hout] at hw
    obtain rfl : convertBilevel (globalThreshold t (invertImg img)) = out := by
      simpa using hw
    have h1 : allPixels 255 (invertImg img) := by
      have := allPixels_rowMap (fun p => 255 - p) 0 img hblack
      simpa [invertImg] using this
    have h2 : allPixels 255 (globalThreshold t (invertImg img)) := by
      have h := allPixels_rowMap (fun p => if Int.ofNat p > t then 255 else 0)
        255 _ h1
      have ht255 : t < (255 : Int) := lt_of_le_of_lt h254 (by norm_num)
      simpa [globalThreshold, ht255] using h
    have h3 := allPixels_rowMap (fun p => if p > 127 then 255 else 0) 255 _ h2
    simpa [convertBilevel] using h3

/-- C5 witness: at threshold 128 an all-white pixel inverts to all-black
output and an all-black pixel inverts to all-white output. -/
theorem invert_threshold_extremes_witness :
    allPixels 0 ([[0]] : Img) ∧ allPixels 255 ([[255]] : Img) :=
  ⟨(invert_threshold_extremes [[255]] [[0]] 128 (fun _ _ => 0) (by decide)
      (by decide)).1 (by decide) (by decide),
   (invert_threshold_extremes [[0]] [[255]] 128 (fun _ _ => 0) (by decide)
      (by decide)).2 (by decide) (by decide) (by decide)⟩

/-- C9: whenever the binarizer succeeds on a decodable image, the output
has the same row count and row lengths as the input, and every output
pixel is either pure black (0) or pure white (255) — in global and
adaptive mode, with or without inversion. -/
theorem binarizer_shape_bilevel (decoded : Option Img) (args : BinarizeArgs)
    (gm : Nat → Nat → Int) (img out : Img)
    (hdec : decoded = some img)
    (h : whiten_and_save_as_tiff decoded args gm = .ok out) :
    out.map List.length = img.map List.length ∧
      ∀ row ∈ out, ∀ p ∈ row, p = 0 ∨ p = 255 := by
  subst hdec
  obtain ⟨mid, rfl, hshape⟩ := whiten_ok_elim img out args gm h
  exact ⟨(convertBilevel_shape mid).trans hshape, convertBilevel_bilevel mid⟩

/-- C9 witness: a 1×2 image thresholded with the default arguments. -/
theorem binarizer_shape_bilevel_witness :
    ([[255, 0]] : Img).map List.length = ([[255, 7]] : Img).map List.length ∧
      ∀ row ∈ ([[255, 0]] : Img), ∀ p ∈ row, p = 0 ∨ p = 255 :=
  binarizer_shape_bilevel (some [[255, 7]]) {} (fun _ _ => 0) [[255, 7]]
    [[255, 0]] rfl (by decide)

/-- C7: called with an empty list of pages, `convert_tiffs_to_pdf` raises
the empty-list error before creating anything at the output path; and
when the output path resolves to an existing directory it always fails,
leaving no file at the output path. -/
theorem packer_rejects_empty_and_directory (tiffPaths : List String)
    (env : PackEnv) :
    (tiffPaths = [] →
      convert_tiffs_to_pdf tiffPaths env =
        (.error .emptyList, ⟨env.parentExists, .absent⟩)) ∧
    (env.outputIsDir = true →
      (∃ e, (convert_tiffs_to_pdf tiffPaths env).1 = .error e) ∧
      (convert_tiffs_to_pdf tiffPaths env).2.out = .absent) := by
  constructor
  · intro h; subst h; rfl
  · intro hdir
    unfold convert_tiffs_to_pdf
    by_cases he : tiffPaths.isEmpty <;> simp [he, hdir]

/-- C7 witness: the empty list is rejected, and a directory-shaped output
path is rejected even with pages supplied. -/
theorem packer_rejects_empty_and_directory_witness :
    convert_tiffs_to_pdf [] ⟨false, true, true⟩ =
        (.error .emptyList, ⟨true, .absent⟩) ∧
      (∃ e, (convert_tiffs_to_pdf ["a.tiff"] ⟨true, true, true⟩).1 = .error e) :=
  ⟨(packer_rejects_empty_and_directory [] ⟨false, true, true⟩).1 rfl,
   ((packer_rejects_empty_and_directory ["a.tiff"] ⟨true, true, true⟩).2 rfl).1⟩

/-- C10: given a non-empty page list and an output path whose parent
directories are missing, `convert_tiffs_to_pdf` creates the parents
(`mkdir(parents=True, exist_ok=True)`) rather than failing, and when the
output path is not a directory and the conversion succeeds it writes the
output file. -/
theorem packer_creates_parents (tiffPaths : List String) (env : PackEnv)
    (hne : tiffPaths ≠ []) (hpar : env.parentExists = false) :
    (convert_tiffs_to_pdf tiffPaths env).2.parentDirsExist = true ∧
    (env.outputIsDir = false → env.img2pdfOk = true →
      convert_tiffs_to_pdf tiffPaths env = (.ok (), ⟨true, .written⟩)) := by
  have he : tiffPaths.isEmpty = false := by
    cases tiffPaths with
    | nil => exact absurd rfl hne
    | cons a l => rfl
  constructor
  · unfold convert_tiffs_to_pdf
    rw [he]
    by_cases hdir : env.outputIsDir <;> simp [hdir] <;>
      by_cases hok : env.img2pdfOk <;> simp [hok]
  · intro hdir hok
    unfold convert_tiffs_to_pdf
    simp [he, hdir, hok]

/-- C10 witness: one page, no pre-existing parents: the parents exist
afterwards and the file is written. -/
theorem packer_creates_parents_witness :
    (convert_tiffs_to_pdf ["p.tiff"] ⟨false, false, true⟩).2.parentDirsExist
        = true ∧
      convert_tiffs_to_pdf ["p.tiff"] ⟨false, false, true⟩ =
        (.ok (), ⟨true, .written⟩) :=
  ⟨(packer_creates_parents ["p.tiff"] ⟨false, false, true⟩ (by decide) rfl).1,
   (packer_creates_parents ["p.tiff"] ⟨false, false, true⟩ (by decide) rfl).2
     rfl rfl⟩

/-- C3: any configuration with non-positive DPI, a threshold outside
0–255, or adaptive mode with a block size that is even or less than 3 is
rejected with a validation error before any work: the run's final state
equals the untouched initial state — no temporary directory created, no
external tool invoked, no file read, no output produced. -/
theorem betteria_validation_before_work (cfg : Config) (env : PipeEnv)
    (h : cfg.dpi ≤ 0 ∨ cfg.threshold < 0 ∨ 255 < cfg.threshold ∨
        (cfg.use_adaptive ∧ (cfg.block_size < 3 ∨ cfg.block_size % 2 = 0))) :
    ((betteria cfg env).1 = .error .invalidDpi ∨
      (betteria cfg env).1 = .error .invalidThreshold ∨
      (betteria cfg env).1 = .error .invalidBlockSize) ∧
    (betteria cfg env).2 = untouched env ∧
    (untouched env).tempDirs = 0 ∧
    (untouched env).externalToolUsed = false ∧
    (untouched env).fileRead = false ∧
    (untouched env).out = .absent := by
  refine ⟨?_, ?_, rfl, rfl, rfl, rfl⟩ <;>
  · unfold betteria
    by_cases h1 : cfg.dpi ≤ 0
    · simp [h1]
    rw [if_neg h1]
    by_cases h2 : cfg.threshold < 0 ∨ 255 < cfg.threshold
    · simp [h2]
    rw [if_neg h2]
    by_cases h3 : cfg.use_adaptive ∧ (cfg.block_size < 3 ∨ cfg.block_size % 2 = 0)
    · rw [if_pos h3]
      try simp
    · exfalso
      rcases h with h | h | h | h
      exacts [h1 h, h2 (Or.inl h), h2 (Or.inr h), h3 h]

/-- C3 witness: DPI 0 is rejected with the initial state untouched. -/
theorem betteria_validation_before_work_witness :
    (betteria { dpi := 0 }
        ⟨true, false, true,
          ⟨⟨true, true, "", ["Pages: 1"]⟩, true, true, "", fun _ => true,
            fun _ => "", ["page-1.png"], 4⟩,
          fun _ => some [[255]], fun _ _ _ => 0, true⟩).2 =
      untouched
        ⟨true, false, true,
          ⟨⟨true, true, "", ["Pages: 1"]⟩, true, true, "", fun _ => true,
            fun _ => "", ["page-1.png"], 4⟩,
          fun _ => some [[255]], fun _ _ _ => 0, true⟩ :=
  (betteria_validation_before_work _ _ (Or.inl (by decide))).2.1

/-- C2 counterexample: a run that reaches the Packer but whose
`img2pdf.convert` call fails leaves an empty file at the output path —
the output file is opened for writing before the conversion runs — so a
failure "during packing itself" does not leave the output path empty of
files. -/
theorem betteria_pack_failure_output_cex :
    betteria { jobs := 1 }
      ⟨true, false, true,
        ⟨⟨true, true, "", ["Pages: 1"]⟩, true, true, "", fun _ => true,
          fun _ => "", ["page-1.png"], 4⟩,
        fun _ => some [[255, 0]], fun _ _ _ => 0, false⟩
      = (.error (.pack .convertFailed), ⟨2, true, true, none, true, .emptyFile⟩) ∧
      OutFile.emptyFile ≠ OutFile.absent := by decide

/-- C2 (amended): the Packer is called last and a complete output
document exists only on full success; a failure at any earlier stage
(validation, rasterization, binarization — any non-Packer error) leaves
no file at the output path; but a failure of `img2pdf.convert` during
packing itself, after the output file has been opened for writing, leaves
an empty file at the output path. -/
theorem betteria_output_atomicity (cfg : Config) (env : PipeEnv) :
    ((betteria cfg env).1 = .ok () → (betteria cfg env).2.out = .written) ∧
    (∀ e : PipeErr, (betteria cfg env).1 = .error e →
      (∀ pe, e ≠ .pack pe) → (betteria cfg env).2.out = .absent) ∧
    ((betteria cfg env).1 = .error (.pack .convertFailed) →
      (betteria cfg env).2.out = .emptyFile) := by
  unfold betteria
  split_ifs with h1 h2 h3 h4 h5
  · exact ⟨by simp, fun e he hnp => rfl, by simp⟩
  · exact ⟨by simp, fun e he hnp => rfl, by simp⟩
  · exact ⟨by simp, fun e he hnp => rfl, by simp⟩
  · exact ⟨by simp, fun e he hnp => rfl, by simp⟩
  · exact ⟨by simp, fun e he hnp => rfl, by simp⟩
  cases hr : pdf_to_images env.inputExists cfg.jobs env.raster with
  | error e => exact ⟨by simp, fun e' he' hnp => rfl, by simp⟩
  | ok pngs =>
    by_cases hne : pngs.isEmpty
    · simp only [hne, if_true]
      exact ⟨by simp, fun e' he' hnp => rfl, by simp⟩
    · simp only [hne, Bool.false_eq_true, if_false]
      cases hb : firstBinarizeError env.decode env.gaussMean
          ⟨cfg.threshold, cfg.use_adaptive, cfg.block_size, cfg.c_val, cfg.invert⟩
          pngs with
      | some pe =>
        exact ⟨by simp, fun e' he' hnp => rfl, by simp⟩
      | none =>
        rcases hc : convert_tiffs_to_pdf (pngs.map tiffName)
            ⟨env.outputIsDir, env.outParentExists, env.img2pdfOk⟩ with ⟨r, ps⟩
        cases r with
        | ok u =>
          cases u
          refine ⟨fun _ => ?_, ?_, ?_⟩
          · exact pack_pair_ok _ _ _ hc
          · intro e' he' hnp; exact absurd he' (by simp)
          · intro hcon; exact absurd hcon (by simp)
        | error e =>
          refine ⟨by simp, ?_, ?_⟩
          · intro e' he' hnp
            simp only [Except.error.injEq] at he'
            exact absurd rfl (he' ▸ hnp e)
          · intro hcon
            simp only [Except.error.injEq, PipeErr.pack.injEq] at hcon
            rcases pack_pair_err _ _ _ _ hc with ⟨-, hout⟩ | ⟨hno, -⟩
            · exact hout
            · exact absurd hcon hno

/-- C2 witness: a run whose rasterizer binary is missing fails before the
Packer and leaves nothing at the output path. -/
theorem betteria_output_atomicity_witness :
    (betteria { jobs := 1 }
        ⟨true, false, true,
          ⟨⟨true, true, "", ["Pages: 1"]⟩, false, true, "", fun _ => true,
            fun _ => "", [], 4⟩,
          fun _ => some [[255]], fun _ _ _ => 0, true⟩).2.out = OutFile.absent :=
  (betteria_output_atomicity { jobs := 1 }
      ⟨true, false, true,
        ⟨⟨true, true, "", ["Pages: 1"]⟩, false, true, "", fun _ => true,
          fun _ => "", [], 4⟩,
        fun _ => some [[255]], fun _ _ _ => 0, true⟩).2.1
    (.raster .toolMissing) (by decide) (by intro pe; simp)

/-- C6: at both fan-out points the worker-pool size is the minimum of the
requested worker count (or the auto-detected available-CPU count when the
request is 0) and the page count, and is at least 1; and the binarization
stage uses a worker pool exactly when that size is at least 2, running
sequentially in-process otherwise. -/
theorem worker_pool_sizing (jobs cpuRaw : Nat) (pages : Int) (cfg : Config)
    (env : PipeEnv) (pngs : List String)
    (hp : 1 ≤ pages)
    (hvd : ¬ cfg.dpi ≤ 0)
    (hvt : ¬ (cfg.threshold < 0 ∨ 255 < cfg.threshold))
    (hvb : ¬ (cfg.use_adaptive ∧ (cfg.block_size < 3 ∨ cfg.block_size % 2 = 0)))
    (hin : env.inputExists = true) (hdir : env.outputIsDir = false)
    (hok : pdf_to_images env.inputExists cfg.jobs env.raster = .ok pngs)
    (hne : pngs ≠ []) :
    rasterWorkerTarget jobs cpuRaw pages =
        min (if jobs > 0 then (jobs : Int) else (available_cpu_count cpuRaw : Int))
          pages ∧
      1 ≤ rasterWorkerTarget jobs cpuRaw pages ∧
      binarizeWorkerTarget jobs cpuRaw pngs.length =
        min (if jobs > 0 then jobs else available_cpu_count cpuRaw) pngs.length ∧
      1 ≤ binarizeWorkerTarget jobs cpuRaw pngs.length ∧
      (betteria cfg env).2.binarizePool =
        (if binarizeWorkerTarget cfg.jobs env.raster.cpuRaw pngs.length ≤ 1
          then none
          else some (binarizeWorkerTarget cfg.jobs env.raster.cpuRaw pngs.length)) := by
  have hw1 : ∀ j c : Nat, (1 : Int) ≤ (if j > 0 then (j : Int) else (available_cpu_count c : Int)) := by
    intro j c
    by_cases hj : j > 0 <;> simp [hj, available_cpu_count]
    · exact_mod_cast hj
  have hw1n : ∀ j c : Nat, 1 ≤ (if j > 0 then j else available_cpu_count c) := by
    intro j c
    by_cases hj : j > 0 <;> simp [hj, available_cpu_count]
    · exact hj
  have hlen : 1 ≤ pngs.length := List.length_pos.mpr hne
  refine ⟨?_, ?_, rfl, ?_, ?_⟩
  · unfold rasterWorkerTarget
    exact max_eq_right (le_min (hw1 jobs cpuRaw) hp)
  · unfold rasterWorkerTarget
    exact le_max_left 1 _
  · unfold binarizeWorkerTarget
    exact le_min (hw1n jobs cpuRaw) hlen
  · unfold betteria
    rw [if_neg hvd, if_neg hvt, if_neg hvb, hin] at *
    rw [hin] at hok
    simp only [Bool.not_true, Bool.false_eq_true, if_false]
    rw [if_neg (by simp [hdir])]
    rw [hok]
    try dsimp only
    rw [if_neg (by simpa [List.isEmpty_iff] using hne)]
    try dsimp only
    cases hb : firstBinarizeError env.decode env.gaussMean
        ⟨cfg.threshold, cfg.use_adaptive, cfg.block_size, cfg.c_val, cfg.invert⟩
        pngs with
    | some pe => rfl
    | none =>
      rcases hc : convert_tiffs_to_pdf (pngs.map tiffName)
          ⟨env.outputIsDir, env.outParentExists, env.img2pdfOk⟩ with ⟨r, ps⟩
      cases r <;> rfl

/-- C6 witness: one page, one requested worker — the pool sizes are 1 and
binarization runs sequentially. -/
theorem worker_pool_sizing_witness :
    (betteria { jobs := 1 }
        ⟨true, false, true,
          ⟨⟨true, true, "", ["Pages: 1"]⟩, true, true, "", fun _ => true,
            fun _ => "", ["page-1.png"], 4⟩,
          fun _ => some [[255]], fun _ _ _ => 0, true⟩).2.binarizePool = none :=
  ((worker_pool_sizing 1 4 1 { jobs := 1 }
      ⟨true, false, true,
        ⟨⟨true, true, "", ["Pages: 1"]⟩, true, true, "", fun _ => true,
          fun _ => "", ["page-1.png"], 4⟩,
        fun _ => some [[255]], fun _ _ _ => 0, true⟩ ["page-1.png"]
      (by decide) (by decide) (by decide) (by decide) rfl rfl (by decide)
      (by decide)).2.2.2.2).trans (by decide)

end Betteria

